import Mathlib

/-!
Verification development for the formula2latex-recognizer pipeline.

Shallow embedding of the dispatch / result-correlation core:
  * `domain/wallet.py` — `Wallet`, `TopUpTransaction`, `SpendTransaction`
  * `domain/task.py` — `RecognitionTask`
  * `services/task_service.py` — `TaskService.create_prediction_task` (dispatcher)
  * `infrastructure/messaging.py` — `BackendMessaging.publish_task`,
    `BackendMessaging.get_task_result` (synchronous fetcher)
  * `services/result_processor.py` — `ResultProcessor.process_result` (reconciler)
  * `ml/worker.py` — `FormulaWorker.process_task`
  * `domain/services/task_service.py` — `TaskManagementService.cancel_task`
  * `infrastructure/models.py` / `infrastructure/repositories.py` — `TaskStatus`,
    `SQLAlchemyTaskRepository.update_task_status`

Python `Decimal` amounts are modelled by `Rat`; uuids by `String` (fresh uuid4 values
are passed in as explicit arguments); message-broker effects by explicit event lists;
raised exceptions by `Except String`.
-/

/-- The `TaskStatus` enum of `infrastructure/models.py` (lines 13-17).  Its members are
PENDING, IN_PROGRESS, DONE and ERROR; there is no CANCELLED member. -/
inductive TaskStatus where
  | pending
  | in_progress
  | done
  | error
deriving DecidableEq, Repr

/-- Python enum lookup by value, `TaskStatus(value)`: returns the member whose value is
the given string and raises `ValueError` for any other string (in particular for the
string "cancelled", which is not a member value of this enum). -/
def TaskStatus.ofValue : String → Except String TaskStatus
  | "pending" => .ok .pending
  | "in_progress" => .ok .in_progress
  | "done" => .ok .done
  | "error" => .ok .error
  | s => .error (s ++ " is not a valid TaskStatus")

/-- A ledger transaction (`domain/wallet.py`): the abstract `Transaction` with its two
concrete subclasses `TopUpTransaction` and `SpendTransaction`. -/
inductive Txn where
  | topUp (id wallet_id : String) (amount post_balance : Rat)
  | spendTxn (id wallet_id : String) (amount post_balance : Rat)
deriving DecidableEq, Repr

def Txn.amount : Txn → Rat
  | .topUp _ _ a _ => a
  | .spendTxn _ _ a _ => a

def Txn.post_balance : Txn → Rat
  | .topUp _ _ _ b => b
  | .spendTxn _ _ _ b => b

/-- The user wallet (`domain/wallet.py` `Wallet`): balance plus append-only transaction
list. -/
structure Wallet where
  id : String
  owner_id : String
  balance : Rat
  transactions : List Txn
deriving DecidableEq, Repr

/-- `Transaction.apply` as implemented by the two subclasses: `TopUpTransaction.apply`
increases the balance and appends the transaction; `SpendTransaction.apply` first checks
`wallet._balance < self._amount` and raises before touching the wallet if the check
fails, otherwise decreases the balance and appends the transaction. -/
def Txn.apply (t : Txn) (w : Wallet) : Except String Wallet :=
  match t with
  | .topUp .. =>
      .ok { w with balance := w.balance + t.amount,
                   transactions := w.transactions ++ [t] }
  | .spendTxn .. =>
      if w.balance < t.amount then
        .error "Недостаточно средств для списания"
      else
        .ok { w with balance := w.balance - t.amount,
                     transactions := w.transactions ++ [t] }

/-- `Wallet.top_up`: builds a `TopUpTransaction` with `post_balance = balance + amount`
and applies it.  The fresh `uuid4()` is the `txnId` argument. -/
def Wallet.top_up (w : Wallet) (amount : Rat) (txnId : String) :
    Except String (Wallet × Txn) :=
  let t := Txn.topUp txnId w.id amount (w.balance + amount)
  (t.apply w).map (fun w' => (w', t))

/-- `Wallet.spend`: builds a `SpendTransaction` with `post_balance = balance - amount`
and applies it; the application raises (leaving the wallet untouched) when the balance
is below the amount. -/
def Wallet.spend (w : Wallet) (amount : Rat) (txnId : String) :
    Except String (Wallet × Txn) :=
  let t := Txn.spendTxn txnId w.id amount (w.balance - amount)
  (t.apply w).map (fun w' => (w', t))

/-- A balance-affecting operation of the submit/cancel flows: a charge at submission
(through `SpendTransaction.apply`) or a compensating/ordinary top-up (through
`WalletManagementService.top_up_wallet`, which rejects non-positive amounts). -/
inductive WalletOp where
  | topUpOp (amount : Rat)
  | chargeOp (amount : Rat)
deriving DecidableEq, Repr

/-- One submit/cancel ledger step.  A rejected operation raises in the source before any
mutation, so it leaves the wallet unchanged: `top_up_wallet` raises for `amount <= 0`
(`domain/services/wallet_service.py`), `SpendTransaction.apply` raises when
`balance < amount` (`domain/wallet.py` lines 58-63). -/
def walletStep (w : Wallet) : WalletOp → Wallet
  | .topUpOp a =>
      if a ≤ 0 then w
      else
        match w.top_up a "txn" with
        | .ok (w', _) => w'
        | .error _ => w
  | .chargeOp a =>
      match w.spend a "txn" with
      | .ok (w', _) => w'
      | .error _ => w

/-- A sequence of submit/cancel ledger operations applied in order. -/
def walletRun (w : Wallet) (ops : List WalletOp) : Wallet :=
  ops.foldl walletStep w

/-- The `task_data` dict that `TaskService.create_prediction_task` hands to
`BackendMessaging.publish_task` (`services/task_service.py` lines 99-105). -/
structure TaskData where
  task_id : String
  user_id : String
  image_data : String
  filename : String
  model_id : String
deriving DecidableEq, Repr

/-- The broker message built by `BackendMessaging.publish_task`
(`infrastructure/messaging.py` lines 106-132): the JSON payload fields together with
the pika properties used for correlation. -/
structure PublishedTask where
  task_id : String
  user_id : String
  image_data : String
  filename : String
  model_id : String
  message_id : String
  delivery_mode : Nat
deriving DecidableEq, Repr

/-- `BackendMessaging.publish_task` (`infrastructure/messaging.py` lines 92-139).
It generates `task_id = str(uuid.uuid4())` — modelled by the `freshId` argument — and
uses that fresh value both as the payload `task_id` and as the broker `message_id`
(`delivery_mode=2`, persistent); the `task_id` already present in the caller's
`task_data` is not read.  Returns the published message and the returned id. -/
def BackendMessaging.publish_task (task_data : TaskData) (freshId : String) :
    PublishedTask × String :=
  ({ task_id := freshId
     user_id := task_data.user_id
     image_data := task_data.image_data
     filename := task_data.filename
     model_id := task_data.model_id
     message_id := freshId
     delivery_mode := 2 }, freshId)

/-- The domain recognition task (`domain/task.py` `RecognitionTask`): status is the
string machine `pending | done | error` of that file. -/
structure RecognitionTask where
  id : String
  user_id : String
  status : String
  output : Option String
  error : Option String
  credits_charged : Rat
deriving DecidableEq, Repr

/-- `RecognitionTask.execute` (`domain/task.py` lines 47-71): inside the `try`, the
balance pre-check raises `Недостаточно кредитов` and the black-box preprocess+predict
runs (its outcome is the `predictResult` argument — `.error` models a raised
exception); any such exception is caught, recorded on the task, and leaves the wallet
untouched.  On success the credits are spent (outside the `try`; a raise there would
propagate, hence the `Except` codomain) and the output stored. -/
def RecognitionTask.execute (t : RecognitionTask) (w : Wallet)
    (predictResult : Except String String) (txnId : String) :
    Except String (RecognitionTask × Wallet) :=
  if w.balance < t.credits_charged then
    .ok ({ t with status := "error", error := some "Недостаточно кредитов" }, w)
  else
    match predictResult with
    | .error e => .ok ({ t with status := "error", error := some e }, w)
    | .ok out =>
        match w.spend t.credits_charged txnId with
        | .ok (w', _) => .ok ({ t with status := "done", output := some out }, w')
        | .error e => .error e

/-- The ML model row that `MLModelRepository.get_by_id` returns. -/
structure MLModelRec where
  id : String
  credit_cost : Rat
deriving DecidableEq, Repr

/-- Externally visible effects of one `create_prediction_task` run, in program order:
committed store writes and broker publishes. -/
inductive DispatchEvent where
  | dbCommitFile (filename : String)
  | dbCommitTask (taskId : String)
  | brokerPublish (msg : PublishedTask)
  | dbCommitTxn (t : Txn)
  | dbCommitBalance (b : Rat)
deriving DecidableEq, Repr

def DispatchEvent.isPublish : DispatchEvent → Bool
  | .brokerPublish _ => true
  | _ => false

/-- The events that persist the credit debit to the store: the transaction-row commit
(`wallet_repo.add_transaction`) and the balance update (`wallet_repo.update_balance`). -/
def DispatchEvent.isDebitPersist : DispatchEvent → Bool
  | .dbCommitTxn _ => true
  | .dbCommitBalance _ => true
  | _ => false

/-- Formalization of the ordering asserted by the specification: every event that
applies the debit to the store comes before every broker publish. -/
def debitAppliedBeforePublish (evs : List DispatchEvent) : Prop :=
  ∀ i j : Fin evs.length,
    (evs.get i).isDebitPersist = true → (evs.get j).isPublish = true → (i : Nat) < j

/-- The ordering the code actually realizes: every broker publish comes before every
event that persists the debit. -/
def publishBeforeDebitPersist (evs : List DispatchEvent) : Prop :=
  ∀ i j : Fin evs.length,
    (evs.get i).isPublish = true → (evs.get j).isDebitPersist = true → (i : Nat) < j

/-- Result of a successful `create_prediction_task` run. -/
structure DispatchOutcome where
  task : RecognitionTask
  wallet : Wallet
  ml_task_id : String
  events : List DispatchEvent
deriving DecidableEq, Repr

/-- `TaskService.create_prediction_task` (`services/task_service.py` lines 29-127).
Arguments stand for the collaborator lookups and fresh values: `model?` is the
`model_repo.get_by_id` result, `wallet` the user's wallet row, `b64ok` whether
`base64.b64decode(file_content)` succeeds, `predictResult` the black-box domain-model
outcome inside `user.execute_task`, and `freshTaskId`/`freshTxnId`/`freshMlId` the
`uuid4()` values drawn for the task row, the spend transaction and
`BackendMessaging.publish_task`'s own id.  The returned `events` list records, in
program order: the file-row commit, the task-row commit (`task_repo.create_task`), the
broker publish, and then the wallet persistence (`add_transaction` of the last wallet
transaction when one exists, then `update_balance`). -/
def TaskService.create_prediction_task
    (model? : Option MLModelRec) (wallet : Wallet) (b64ok : Bool)
    (user_id file_content filename : String)
    (predictResult : Except String String)
    (freshTaskId freshTxnId freshMlId : String) :
    Except String DispatchOutcome :=
  match model? with
  | none => .error "Model not found"
  | some model =>
    if wallet.balance < model.credit_cost then
      .error "Insufficient credits"
    else if b64ok = false then
      .error "Invalid base64 image data"
    else
      let t0 : RecognitionTask :=
        { id := freshTaskId, user_id := user_id, status := "pending",
          output := none, error := none, credits_charged := model.credit_cost }
      match t0.execute wallet predictResult freshTxnId with
      | .error e => .error ("Failed to process task: " ++ e)
      | .ok (task, wallet') =>
        let (msg, mlId) := BackendMessaging.publish_task
          { task_id := task.id, user_id := user_id, image_data := file_content,
            filename := filename, model_id := model.id } freshMlId
        let walletEvents :=
          (match wallet'.transactions.getLast? with
           | some txn => [DispatchEvent.dbCommitTxn txn]
           | none => []) ++ [DispatchEvent.dbCommitBalance wallet'.balance]
        .ok { task := task
              wallet := wallet'
              ml_task_id := mlId
              events := [DispatchEvent.dbCommitFile filename,
                         DispatchEvent.dbCommitTask task.id,
                         DispatchEvent.brokerPublish msg] ++ walletEvents }

/-- A persisted job row (`infrastructure/models.py` `TaskModel`, restricted to the
fields the reconciler and cancellation touch). -/
structure TaskRow where
  id : String
  user_id : String
  status : TaskStatus
  credits_charged : Rat
  output_data : Option String
  error_message : Option String
deriving DecidableEq, Repr

/-- The result-message fields that `ResultProcessor.process_result` reads from the
JSON body (`result_data.get(...)` — each may be absent). -/
structure ResultMessage where
  task_id : Option String
  user_id : Option String
  success : Bool
  latex_code : Option String
  error : Option String
deriving DecidableEq, Repr

/-- The durable store as the reconciler sees it: the user table (ids) and the task
table. -/
structure Db where
  users : List String
  tasks : List TaskRow
deriving DecidableEq, Repr

def Db.findTask (db : Db) (tid : String) : Option TaskRow :=
  db.tasks.find? (fun r => r.id = tid)

/-- What the consumer callback did with the delivery: `basic_ack`, or
`basic_nack(requeue=False)` (which dead-letters the message). -/
inductive BrokerSignal where
  | acked
  | nackedNoRequeue
deriving DecidableEq, Repr

/-- Update the first row with the given id (SQLAlchemy `filter(...).first()` followed by
attribute assignment mutates exactly that row). -/
def updateFirstTask (tasks : List TaskRow) (tid : String) (f : TaskRow → TaskRow) :
    List TaskRow :=
  match tasks with
  | [] => []
  | r :: rs => if r.id = tid then f r :: rs else r :: updateFirstTask rs tid f

/-- The field assignments of `ResultProcessor.process_result` lines 120-129: on success
`status = DONE`, `output_data = result_data.get('latex_code', '')`,
`error_message = None`; otherwise `status = ERROR`,
`error_message = result_data.get('error', 'Unknown error')`, `output_data = None`.
The assignment is unconditional on the row's current status. -/
def reconcileRow (msg : ResultMessage) (r : TaskRow) : TaskRow :=
  if msg.success then
    { r with status := .done, output_data := some (msg.latex_code.getD ""),
             error_message := none }
  else
    { r with status := .error, error_message := some (msg.error.getD "Unknown error"),
             output_data := none }

/-- `ResultProcessor.process_result` (`services/result_processor.py` lines 74-145).
`validUuid` models Python's `UUID(task_id)` parse: a malformed string raises
`ValueError`, which is caught and the message acked (dropped).  A missing `task_id`
makes `UUID(None)` raise `TypeError`, which only the outer handler catches, so the
message is nacked without requeue.  A missing user or task row is logged and acked.
Otherwise the row is updated as in `reconcileRow`, committed, and the message acked. -/
def ResultProcessor.process_result (validUuid : String → Bool) (db : Db)
    (msg : ResultMessage) : Db × BrokerSignal :=
  let userFound :=
    match msg.user_id with
    | some u => db.users.contains u
    | none => false
  if userFound = false then
    (db, .acked)
  else
    match msg.task_id with
    | none => (db, .nackedNoRequeue)
    | some tid =>
      if validUuid tid = false then
        (db, .acked)
      else
        match db.findTask tid with
        | none => (db, .acked)
        | some _ =>
            ({ db with tasks := updateFirstTask db.tasks tid (reconcileRow msg) },
             .acked)

/-- The task-message fields the worker reads (`ml/worker.py`); each may be absent from
the JSON payload. -/
structure WorkerTaskData where
  task_id : Option String
  user_id : Option String
  image_data : Option String
deriving DecidableEq, Repr

/-- The `result_data` dict a worker publishes (`ml/worker.py` lines 101-112 and
127-138), restricted to the correlation-relevant fields. -/
structure WorkerResult where
  task_id : String
  user_id : String
  worker_id : String
  success : Bool
  latex_code : Option String
  confidence : Rat
  error : Option String
deriving DecidableEq, Repr

/-- Outcome of the black-box `ml_model.predict` call: either it returns its result
dict, or it raises an unexpected exception with the given text. -/
inductive PredictorOutcome where
  | returns (success : Bool) (latex_code : Option String) (confidence : Rat)
      (error : Option String)
  | raises (msg : String)
deriving DecidableEq, Repr

/-- Broker interactions of one `process_task` run, in order.  A `publishResult` records
one `publish_result` attempt and whether it succeeded (a `False` attempt raised inside
`publish_result`). -/
inductive BrokerAction where
  | publishResult (r : WorkerResult) (succeeded : Bool)
  | ack (deliveryTag : Nat)
  | nack (deliveryTag : Nat) (requeue : Bool)
deriving DecidableEq, Repr

/-- `FormulaWorker.validate_task_data` (`ml/worker.py` lines 55-83): the required
fields `task_id`, `user_id`, `image_data` are checked in order, then
`ml_model.validate_image` (the black-box `imageValid`) runs.  Returns the `valid` flag
and the error text. -/
def FormulaWorker.validate_task_data (imageValid : String → Bool)
    (td : WorkerTaskData) : Bool × Option String :=
  match td.task_id with
  | none => (false, some "Отсутствует обязательное поле: task_id")
  | some _ =>
    match td.user_id with
    | none => (false, some "Отсутствует обязательное поле: user_id")
    | some _ =>
      match td.image_data with
      | none => (false, some "Отсутствует обязательное поле: image_data")
      | some img =>
        if imageValid img then (true, none)
        else (false, some "Невалидное изображение")

/-- The synthesized failure result of `FormulaWorker._send_error_result`
(`ml/worker.py` lines 125-143). -/
def FormulaWorker.errorResult (workerId : String) (td : WorkerTaskData)
    (err : String) : WorkerResult :=
  { task_id := td.task_id.getD "unknown"
    user_id := td.user_id.getD "unknown"
    worker_id := workerId
    success := false
    latex_code := none
    confidence := 0
    error := some err }

/-- `FormulaWorker._send_error_result` (`ml/worker.py` lines 125-143): one
`publish_result` attempt whose failure is caught and only logged — the caller never
observes whether the publish succeeded. -/
def FormulaWorker.send_error_result (workerId : String) (td : WorkerTaskData)
    (err : String) (pubOk : Bool) : List BrokerAction :=
  [BrokerAction.publishResult (FormulaWorker.errorResult workerId td err) pubOk]

/-- The success-path result dict built at `ml/worker.py` lines 101-112 from the
predictor's returned dict. -/
def FormulaWorker.builtResult (workerId : String) (td : WorkerTaskData)
    (success : Bool) (latex_code : Option String) (confidence : Rat)
    (error : Option String) : WorkerResult :=
  { task_id := td.task_id.getD "unknown"
    user_id := td.user_id.getD "unknown"
    worker_id := workerId
    success := success
    latex_code := latex_code
    confidence := confidence
    error := error }

/-- `FormulaWorker.process_task` (`ml/worker.py` lines 85-123), as the sequence of
broker actions it performs.  `pubOk` is whether the main `publish_result` call at line
114 succeeds, `errPubOk` whether the publish attempt inside `_send_error_result`
succeeds, and `pubFailText` the exception text when the main publish raises.
Paths: an invalid payload gets a synthesized failure result and an `ack` (lines 92-96);
a predictor exception reaches the handler at line 120, which sends the failure result
and then `nack`s without requeue (line 123); a returned prediction is published and
acked when the publish succeeds, while a raised publish also reaches the line-120
handler (failure result, then nack without requeue). -/
def FormulaWorker.process_task (workerId : String) (imageValid : String → Bool)
    (pred : PredictorOutcome) (pubOk errPubOk : Bool) (pubFailText : String)
    (deliveryTag : Nat) (td : WorkerTaskData) : List BrokerAction :=
  let v := FormulaWorker.validate_task_data imageValid td
  if v.1 = false then
    FormulaWorker.send_error_result workerId td (v.2.getD "") errPubOk
      ++ [BrokerAction.ack deliveryTag]
  else
    match pred with
    | .raises e =>
        FormulaWorker.send_error_result workerId td e errPubOk
          ++ [BrokerAction.nack deliveryTag false]
    | .returns success latex_code confidence error =>
        let r := FormulaWorker.builtResult workerId td success latex_code confidence error
        if pubOk then
          [BrokerAction.publishResult r true, BrokerAction.ack deliveryTag]
        else
          [BrokerAction.publishResult r false]
            ++ FormulaWorker.send_error_result workerId td pubFailText errPubOk
            ++ [BrokerAction.nack deliveryTag false]

/-- A cached result message of the synchronous fetcher: the `task_id` the payload may
carry, and the rest of the payload, kept opaque. -/
structure FetchMsg where
  task_id : Option String
  payload : String
deriving DecidableEq, Repr

/-- The fetcher's `_results_store` dict, as an association list. -/
abbrev FetchStore := List (String × FetchMsg)

/-- Python dict read `store[k]` / `k in store`. -/
def storeGet (s : FetchStore) (k : String) : Option FetchMsg :=
  (s.find? (fun p => p.1 = k)).map (fun p => p.2)

/-- Python dict write `store[k] = v`: overwrite the existing binding or append one. -/
def storeSet (s : FetchStore) (k : String) (v : FetchMsg) : FetchStore :=
  match s with
  | [] => [(k, v)]
  | (k', v') :: rest =>
      if k' = k then (k, v) :: rest else (k', v') :: storeSet rest k v

/-- `BackendMessaging._process_result_message` (`infrastructure/messaging.py` lines
194-205): parse the body and, when the payload carries a `task_id`, store it in
`_results_store` keyed by that id; a payload without a `task_id` (or an unparseable
body) is dropped. -/
def BackendMessaging.process_result_message (store : FetchStore) (m : FetchMsg) :
    FetchStore :=
  match m.task_id with
  | some tid => storeSet store tid m
  | none => store

/-- The polling loop of `BackendMessaging.get_task_result` (lines 164-180): on each
iteration within the wall-clock budget, `basic_get(auto_ack=True)` pops the next
available result message (the head of `queue`), caches it, and checks whether the
requested id is now cached; an empty poll just consumes budget.  Returns the result
(or `none` after the budget is exhausted), the final cache, and the unconsumed queue. -/
def getTaskResultLoop (task_id : String) :
    Nat → FetchStore → List FetchMsg → Option FetchMsg × FetchStore × List FetchMsg
  | 0, store, queue => (none, store, queue)
  | Nat.succ b, store, queue =>
    match queue with
    | [] => getTaskResultLoop task_id b store []
    | m :: rest =>
      let store' := BackendMessaging.process_result_message store m
      match storeGet store' task_id with
      | some r => (some r, store', rest)
      | none => getTaskResultLoop task_id b store' rest

/-- `BackendMessaging.get_task_result` (`infrastructure/messaging.py` lines 141-187):
first the cache lookup (`if task_id in self._results_store`), then the polling loop.
The `timeout` is modelled as a budget of polling iterations. -/
def BackendMessaging.get_task_result (task_id : String) (store : FetchStore)
    (queue : List FetchMsg) (timeoutBudget : Nat) :
    Option FetchMsg × FetchStore × List FetchMsg :=
  match storeGet store task_id with
  | some r => (some r, store, queue)
  | none => getTaskResultLoop task_id timeoutBudget store queue

/-- A fetcher cache is well-keyed when every entry is stored under the id its payload
carries. -/
def wellKeyed (s : FetchStore) : Prop :=
  ∀ p ∈ s, p.2.task_id = some p.1

/-- `SQLAlchemyTaskRepository.update_task_status` (`infrastructure/repositories.py`
lines 235-253): look the row up, evaluate `TaskStatus(status)` — which raises
`ValueError` when the string is not a member value — then assign the status (and the
output/error when truthy) and commit. -/
def TaskRepository.update_task_status (tasks : List TaskRow) (task_id : String)
    (status : String) (output error : Option String) :
    Except String (List TaskRow) :=
  match tasks.find? (fun r => r.id = task_id) with
  | none => .error ("Task with id " ++ task_id ++ " not found")
  | some _ =>
    match TaskStatus.ofValue status with
    | .error e => .error e
    | .ok st =>
        .ok (updateFirstTask tasks task_id (fun r =>
          { r with status := st,
                   output_data := match output with
                     | some o => some o
                     | none => r.output_data,
                   error_message := match error with
                     | some e => some e
                     | none => r.error_message }))

/-- Result of a cancellation run: the task table, the wallet, and whether a
compensating credit was issued. -/
structure CancelOutcome where
  tasks : List TaskRow
  wallet : Wallet
  refunded : Bool
deriving DecidableEq, Repr

/-- `WalletManagementService.top_up_wallet` (`domain/services/wallet_service.py`):
rejects non-positive amounts, then creates and applies a top-up transaction. -/
def WalletManagementService.top_up_wallet (w : Wallet) (amount : Rat)
    (txnId : String) : Except String Wallet :=
  if amount ≤ 0 then .error "Сумма пополнения должна быть положительной"
  else (w.top_up amount txnId).map (fun p => p.1)

/-- `TaskManagementService.cancel_task` (`domain/services/task_service.py` lines
130-153): fetch the task (with the ownership check of `get_task_by_id`), reject when
the status is not pending, set the status to "cancelled" through the repository, then
issue the compensating credit of the model's cost (when the model row still exists).
An exception raised by any step propagates to the caller. -/
def TaskManagementService.cancel_task (userId : String) (isAdmin : Bool)
    (tasks : List TaskRow) (wallet : Wallet) (modelCost? : Option Rat)
    (txnId : String) (task_id : String) : Except String CancelOutcome :=
  match tasks.find? (fun r => r.id = task_id) with
  | none => .error "Задача не найдена"
  | some task =>
    if task.user_id ≠ userId ∧ isAdmin = false then
      .error "Задача не найдена"
    else if task.status ≠ TaskStatus.pending then
      .error "Нельзя отменить задачу в этом статусе"
    else
      match TaskRepository.update_task_status tasks task_id "cancelled" none none with
      | .error e => .error e
      | .ok tasks' =>
        match modelCost? with
        | none => .ok { tasks := tasks', wallet := wallet, refunded := false }
        | some cost =>
          match WalletManagementService.top_up_wallet wallet cost txnId with
          | .error e => .error e
          | .ok w' => .ok { tasks := tasks', wallet := w', refunded := true }

/-- A concrete wallet used to evaluate the dispatcher on a concrete input. -/
def demoWallet : Wallet :=
  { id := "w1", owner_id := "u1", balance := 10, transactions := [] }

/-- A concrete ML model row (price 5 credits). -/
def demoModel : MLModelRec := { id := "model-1", credit_cost := 5 }

/-- A concrete successful dispatcher run: model found, balance 10 against price 5,
valid base64 payload, domain prediction succeeds, with fresh uuids "job-1" (task row),
"txn-1" (spend transaction) and "ml-9" (`BackendMessaging.publish_task`'s own id). -/
def demoDispatch : Except String DispatchOutcome :=
  TaskService.create_prediction_task (some demoModel) demoWallet true
    "u1" "imgdata" "formula.png" (Except.ok "x^2") "job-1" "txn-1" "ml-9"

/-- The spend transaction the concrete dispatcher run records (price 5 against
balance 10, so the recorded post_balance is 10 - 5). -/
def demoSpendTxn : Txn :=
  Txn.spendTxn "txn-1" "w1" demoModel.credit_cost
    (demoWallet.balance - demoModel.credit_cost)

/-- The message the concrete dispatcher run publishes. -/
def demoPublishedMsg : PublishedTask :=
  { task_id := "ml-9", user_id := "u1", image_data := "imgdata",
    filename := "formula.png", model_id := "model-1",
    message_id := "ml-9", delivery_mode := 2 }

/-- The full outcome of the concrete dispatcher run. -/
def demoDispatchOutcome : DispatchOutcome :=
  { task := { id := "job-1", user_id := "u1", status := "done",
              output := some "x^2", error := none, credits_charged := 5 }
    wallet := { id := "w1", owner_id := "u1",
                balance := demoWallet.balance - demoModel.credit_cost,
                transactions := [demoSpendTxn] }
    ml_task_id := "ml-9"
    events := [DispatchEvent.dbCommitFile "formula.png",
               DispatchEvent.dbCommitTask "job-1",
               DispatchEvent.brokerPublish demoPublishedMsg,
               DispatchEvent.dbCommitTxn demoSpendTxn,
               DispatchEvent.dbCommitBalance
                 (demoWallet.balance - demoModel.credit_cost)] }

/-- A task table holding one pending task, for the cancellation run. -/
def demoCancelTasks : List TaskRow :=
  [{ id := "t1", user_id := "u1", status := TaskStatus.pending,
     credits_charged := 5, output_data := none, error_message := none }]

/-- A store whose single job is already terminal (done, with output recorded). -/
def demoDoneDb : Db :=
  { users := ["u1"],
    tasks := [{ id := "t1", user_id := "u1", status := TaskStatus.done,
                credits_charged := 5, output_data := some "x^2",
                error_message := none }] }

/-- A failure `ResultMessage` for the job of `demoDoneDb`. -/
def demoFailMsg : ResultMessage :=
  { task_id := some "t1", user_id := some "u1", success := false,
    latex_code := none, error := some "boom" }

/-- A structurally complete worker task payload. -/
def demoWorkerTask : WorkerTaskData :=
  { task_id := some "t1", user_id := some "u1", image_data := some "img" }

/-- A worker task payload missing the required `image_data` field. -/
def demoInvalidTask : WorkerTaskData :=
  { task_id := some "t2", user_id := some "u1", image_data := none }

/-- A cached result message for job "a". -/
def demoMsgA : FetchMsg := { task_id := some "a", payload := "resA" }

/-- A queued result message for job "b". -/
def demoMsgB : FetchMsg := { task_id := some "b", payload := "resB" }

/-- A fetcher cache already holding the result of job "a". -/
def demoFetchStore : FetchStore := [("a", demoMsgA)]

/-- A result queue holding one message, for job "b". -/
def demoQueue : List FetchMsg := [demoMsgB]

/-! ## Theorems -/

/-- Helper: one submit/cancel ledger step keeps a non-negative balance non-negative. -/
theorem walletStep_nonneg (w : Wallet) (op : WalletOp) (h : 0 ≤ w.balance) :
    0 ≤ (walletStep w op).balance := by
  cases op with
  | topUpOp a =>
    by_cases ha : a ≤ 0
    · simpa [walletStep, ha] using h
    · push_neg at ha
      simp only [walletStep, if_neg (not_le.mpr ha), Wallet.top_up, Txn.apply,
        Txn.amount, Except.map]
      simpa using by linarith
  | chargeOp a =>
    by_cases hb : w.balance < a
    · simpa [walletStep, Wallet.spend, Txn.apply, Txn.amount, if_pos hb,
        Except.map] using h
    · simp only [walletStep, Wallet.spend, Txn.apply, Txn.amount, if_neg hb,
        Except.map]
      simpa using by linarith [not_lt.mp hb]

/-- C8: for every sequence of top-up and charge (submit/cancel) ledger operations
starting from a non-negative balance, the wallet balance is never negative: a charge
whose amount exceeds the current balance is rejected by `SpendTransaction.apply`
(and a non-positive top-up by `top_up_wallet`) before taking effect. -/
theorem c8_balance_never_negative (w : Wallet) (ops : List WalletOp)
    (h : 0 ≤ w.balance) : 0 ≤ (walletRun w ops).balance := by
  induction ops generalizing w with
  | nil => simpa [walletRun] using h
  | cons op rest ih =>
    have hstep := walletStep_nonneg w op h
    have hrun : walletRun w (op :: rest) = walletRun (walletStep w op) rest := rfl
    rw [hrun]
    exact ih _ hstep

/-- Witness for C8 at a concrete input: balance 10, a charge of 5 followed by a
top-up of 3 and another charge of 7 leaves the balance non-negative. -/
theorem c8_balance_never_negative_witness :
    0 ≤ demoWallet.balance
    ∧ 0 ≤ (walletRun demoWallet
        [WalletOp.chargeOp 5, WalletOp.topUpOp 3, WalletOp.chargeOp 7]).balance :=
  ⟨by norm_num [demoWallet],
   c8_balance_never_negative demoWallet
     [WalletOp.chargeOp 5, WalletOp.topUpOp 3, WalletOp.chargeOp 7]
     (by norm_num [demoWallet])⟩

/-- C10: `Wallet.spend` with a balance below the amount raises (the
`SpendTransaction.apply` check precedes every mutation, so the wallet is left
completely unchanged — no balance change, no appended transaction); otherwise it
returns the wallet with exactly one appended spend transaction whose recorded
`post_balance` equals the wallet's balance immediately after the operation. -/
theorem c10_spend_exactness (w : Wallet) (a : Rat) (txnId : String) :
    (w.balance < a →
       w.spend a txnId = Except.error "Недостаточно средств для списания"
       ∧ walletStep w (WalletOp.chargeOp a) = w)
    ∧ (¬ w.balance < a →
       w.spend a txnId = Except.ok
         ({ w with balance := w.balance - a,
                   transactions :=
                     w.transactions ++ [Txn.spendTxn txnId w.id a (w.balance - a)] },
          Txn.spendTxn txnId w.id a (w.balance - a))
       ∧ (Txn.spendTxn txnId w.id a (w.balance - a)).post_balance = w.balance - a) := by
  constructor
  · intro hlt
    constructor
    · simp [Wallet.spend, Txn.apply, Txn.amount, if_pos hlt, Except.map]
    · simp [walletStep, Wallet.spend, Txn.apply, Txn.amount, if_pos hlt, Except.map]
  · intro hge
    constructor
    · simp [Wallet.spend, Txn.apply, Txn.amount, if_neg hge, Except.map]
    · simp [Txn.post_balance]

/-- Witness for C10: at balance 10, spending 4 succeeds with the recorded
`post_balance` 6, and at balance 10, spending 15 raises leaving the wallet as it was. -/
theorem c10_spend_exactness_witness :
    (¬ demoWallet.balance < 4
     ∧ demoWallet.spend 4 "txn-a" = Except.ok
         ({ demoWallet with balance := 6,
                            transactions := [Txn.spendTxn "txn-a" "w1" 4 6] },
          Txn.spendTxn "txn-a" "w1" 4 6))
    ∧ (demoWallet.balance < 15
       ∧ demoWallet.spend 15 "txn-b" = Except.error "Недостаточно средств для списания"
       ∧ walletStep demoWallet (WalletOp.chargeOp 15) = demoWallet) := by
  refine ⟨⟨by norm_num [demoWallet], ?_⟩, ⟨by norm_num [demoWallet], ?_, ?_⟩⟩
  · have h := ((c10_spend_exactness demoWallet 4 "txn-a").2
      (by norm_num [demoWallet])).1
    simpa [demoWallet, show (10 : Rat) - 4 = 6 by norm_num] using h
  · exact ((c10_spend_exactness demoWallet 15 "txn-b").1
      (by norm_num [demoWallet])).1
  · exact ((c10_spend_exactness demoWallet 15 "txn-b").1
      (by norm_num [demoWallet])).2

/-- C1 (code bug): on the concrete dispatcher run `demoDispatch`, the persisted job
row carries id "job-1" (the task-row commit event), while the TaskMessage published by
`BackendMessaging.publish_task` carries the independently generated uuid "ml-9" as both
its payload `task_id` and its broker `message_id` — the published correlation id does
not equal the persisted job id, so downstream ResultMessages and the reconciled record
cannot refer back to the job row. -/
theorem c1_published_id_differs_from_job_id :
    demoDispatch = Except.ok demoDispatchOutcome
    ∧ demoDispatchOutcome.task.id = "job-1"
    ∧ demoDispatchOutcome.events.get? 1 = some (DispatchEvent.dbCommitTask "job-1")
    ∧ demoPublishedMsg.task_id = "ml-9"
    ∧ demoPublishedMsg.message_id = "ml-9"
    ∧ demoPublishedMsg.task_id ≠ demoDispatchOutcome.task.id := by
  refine ⟨?_, rfl, rfl, rfl, rfl, by decide⟩
  rfl

/-- C6 (code bug): cancelling the pending job "t1" owned by "u1" raises instead of
succeeding: `TaskRepository.update_task_status` evaluates `TaskStatus("cancelled")`,
and the `TaskStatus` enum has no CANCELLED member, so every cancellation of a pending
task fails with a `ValueError` — the status is never set to cancelled and no
compensating credit is ever issued. -/
theorem c6_cancel_always_raises :
    (demoCancelTasks.find? (fun r => r.id = "t1")).map TaskRow.status
      = some TaskStatus.pending
    ∧ TaskManagementService.cancel_task "u1" false demoCancelTasks demoWallet
        (some 5) "txn-9" "t1"
      = Except.error "cancelled is not a valid TaskStatus" := by
  constructor
  · decide
  · rfl

/-- C2 counterexample: on the concrete successful submission `demoDispatch`, the
claimed ordering — every event persisting the credit debit before every broker
publish — is false: the broker publish sits at index 2 of the event trace while the
debit's transaction-row commit and balance update sit at indices 3 and 4. -/
theorem c2_debit_not_before_publish :
    demoDispatch = Except.ok demoDispatchOutcome
    ∧ ¬ debitAppliedBeforePublish demoDispatchOutcome.events := by
  refine ⟨rfl, ?_⟩
  intro hall
  have h := hall ⟨3, by decide⟩ ⟨2, by decide⟩ (by decide) (by decide)
  exact absurd h (by decide)

/-- Helper: in a successful dispatcher trace (file commit, task commit, publish,
transaction commit, balance commit) every broker publish precedes every event that
persists the debit. -/
theorem fiveEventTrace_publish_first (fn tid : String) (msg : PublishedTask)
    (txn : Txn) (b : Rat) :
    publishBeforeDebitPersist
      [DispatchEvent.dbCommitFile fn, DispatchEvent.dbCommitTask tid,
       DispatchEvent.brokerPublish msg, DispatchEvent.dbCommitTxn txn,
       DispatchEvent.dbCommitBalance b] := by
  intro i j hi hj
  rcases i with ⟨iv, hiv⟩
  rcases j with ⟨jv, hjv⟩
  simp only [List.length_cons, List.length_nil] at hiv hjv
  interval_cases iv <;> interval_cases jv <;>
    simp_all [DispatchEvent.isPublish, DispatchEvent.isDebitPersist, List.get]

/-- C2 as amended: for every successful submission (model found, sufficient balance,
valid payload, domain prediction succeeds) the job-row insertion is committed before
the TaskMessage is published and the in-memory debit is taken pessimistically before
the publish, but the debit is persisted to the store (transaction-row commit and
balance update, as separate commits) only after the TaskMessage has been published. -/
theorem c2_publish_precedes_debit_persistence (model : MLModelRec) (w : Wallet)
    (uid img fn out tid txid mlid : String)
    (hbal : ¬ w.balance < model.credit_cost) :
    TaskService.create_prediction_task (some model) w true uid img fn
        (Except.ok out) tid txid mlid
      = Except.ok
          { task := { id := tid, user_id := uid, status := "done",
                      output := some out, error := none,
                      credits_charged := model.credit_cost }
            wallet := { w with
                        balance := w.balance - model.credit_cost,
                        transactions := w.transactions ++
                          [Txn.spendTxn txid w.id model.credit_cost
                             (w.balance - model.credit_cost)] }
            ml_task_id := mlid
            events := [DispatchEvent.dbCommitFile fn,
                       DispatchEvent.dbCommitTask tid,
                       DispatchEvent.brokerPublish
                         { task_id := mlid, user_id := uid, image_data := img,
                           filename := fn, model_id := model.id,
                           message_id := mlid, delivery_mode := 2 },
                       DispatchEvent.dbCommitTxn
                         (Txn.spendTxn txid w.id model.credit_cost
                            (w.balance - model.credit_cost)),
                       DispatchEvent.dbCommitBalance
                         (w.balance - model.credit_cost)] }
    ∧ publishBeforeDebitPersist
        [DispatchEvent.dbCommitFile fn,
         DispatchEvent.dbCommitTask tid,
         DispatchEvent.brokerPublish
           { task_id := mlid, user_id := uid, image_data := img,
             filename := fn, model_id := model.id,
             message_id := mlid, delivery_mode := 2 },
         DispatchEvent.dbCommitTxn
           (Txn.spendTxn txid w.id model.credit_cost
              (w.balance - model.credit_cost)),
         DispatchEvent.dbCommitBalance (w.balance - model.credit_cost)] := by
  constructor
  · simp only [TaskService.create_prediction_task, RecognitionTask.execute,
      Wallet.spend, Txn.apply, Txn.amount, Except.map, if_neg hbal]
    simp [BackendMessaging.publish_task, List.getLast?_concat]
  · exact fiveEventTrace_publish_first fn tid _ _ _

/-- Witness for C2 as amended, at the concrete input of `demoDispatch`. -/
theorem c2_publish_precedes_debit_persistence_witness :
    ¬ demoWallet.balance < demoModel.credit_cost
    ∧ (demoDispatch = Except.ok demoDispatchOutcome
       ∧ publishBeforeDebitPersist demoDispatchOutcome.events) :=
  ⟨by norm_num [demoWallet, demoModel],
   c2_publish_precedes_debit_persistence demoModel demoWallet
     "u1" "imgdata" "formula.png" "x^2" "job-1" "txn-1" "ml-9"
     (by norm_num [demoWallet, demoModel])⟩

/-- C3 counterexample: on a structurally valid TaskMessage whose predictor invocation
raises "boom" (all publishes succeeding), the worker's broker trace is a publish of the
synthesized failure result followed by `nack(requeue=False)` — the TaskMessage is not
acked, contradicting the claim that the worker "then acks ... does not nack or cause
dead-lettering". -/
theorem c3_predictor_exception_nacks :
    FormulaWorker.process_task "w1" (fun _ => true) (PredictorOutcome.raises "boom")
        true true "pubfail" 7 demoWorkerTask
      = [BrokerAction.publishResult
           { task_id := "t1", user_id := "u1", worker_id := "w1", success := false,
             latex_code := none, confidence := 0, error := some "boom" } true,
         BrokerAction.nack 7 false]
    ∧ BrokerAction.ack 7 ∉
        FormulaWorker.process_task "w1" (fun _ => true) (PredictorOutcome.raises "boom")
          true true "pubfail" 7 demoWorkerTask := by
  constructor
  · rfl
  · decide

/-- C3 as amended: for every TaskMessage that passes validation and whose predictor
invocation raises an unexpected exception, the Worker publishes a failure
ResultMessage carrying the exception text as the error and then nacks the TaskMessage
without requeue (routing it to the dead-letter queue); it does not ack. -/
theorem c3_exception_publishes_then_nacks (wid e pubFailText : String)
    (imageValid : String → Bool) (a b img : String) (pubOk errPubOk : Bool)
    (tag : Nat) (himg : imageValid img = true) :
    FormulaWorker.process_task wid imageValid (PredictorOutcome.raises e)
        pubOk errPubOk pubFailText tag
        { task_id := some a, user_id := some b, image_data := some img }
      = [BrokerAction.publishResult
           { task_id := a, user_id := b, worker_id := wid, success := false,
             latex_code := none, confidence := 0, error := some e } errPubOk,
         BrokerAction.nack tag false] := by
  simp [FormulaWorker.process_task, FormulaWorker.validate_task_data, himg,
    FormulaWorker.send_error_result, FormulaWorker.errorResult]

/-- Witness for C3 as amended at a concrete input. -/
theorem c3_exception_publishes_then_nacks_witness :
    (fun (_ : String) => true) "img" = true
    ∧ FormulaWorker.process_task "w1" (fun _ => true) (PredictorOutcome.raises "boom")
        true true "pubfail" 9 { task_id := some "tA", user_id := some "uA",
                                image_data := some "img" }
      = [BrokerAction.publishResult
           { task_id := "tA", user_id := "uA", worker_id := "w1", success := false,
             latex_code := none, confidence := 0, error := some "boom" } true,
         BrokerAction.nack 9 false] :=
  ⟨rfl, c3_exception_publishes_then_nacks "w1" "boom" "pubfail" (fun _ => true)
    "tA" "uA" "img" true true 9 rfl⟩

/-- C9 counterexample: a structurally invalid TaskMessage (missing `image_data`) whose
synthesized failure-result publish FAILS is still acked — `_send_error_result` swallows
the publish exception, so the claim that a message is never acknowledged when the
result publish failed is false. -/
theorem c9_invalid_message_acked_despite_failed_publish :
    FormulaWorker.process_task "w1" (fun _ => true)
        (PredictorOutcome.returns true (some "x") 1 none) true false "pf" 3
        demoInvalidTask
      = [BrokerAction.publishResult
           { task_id := "t2", user_id := "u1", worker_id := "w1", success := false,
             latex_code := none, confidence := 0,
             error := some "Отсутствует обязательное поле: image_data" } false,
         BrokerAction.ack 3] := by
  rfl

/-- C9 as amended: on the validated path the TaskMessage is acked only after the
ResultMessage publish succeeded — a failed publish leads to a failure-result attempt
and a nack, never an ack — while for structurally invalid TaskMessages the publish
outcome of the synthesized failure result is swallowed and the message is acked
regardless of whether that publish succeeded. -/
theorem c9_ack_after_publish_except_invalid (wid a b img pubFailText : String)
    (imageValid : String → Bool) (s : Bool) (l : Option String) (c : Rat)
    (er : Option String) (errPubOk : Bool) (tag : Nat)
    (himg : imageValid img = true) :
    (FormulaWorker.process_task wid imageValid (PredictorOutcome.returns s l c er)
        true errPubOk pubFailText tag
        { task_id := some a, user_id := some b, image_data := some img }
      = [BrokerAction.publishResult
           (FormulaWorker.builtResult wid
             { task_id := some a, user_id := some b, image_data := some img }
             s l c er) true,
         BrokerAction.ack tag])
    ∧ (FormulaWorker.process_task wid imageValid (PredictorOutcome.returns s l c er)
        false errPubOk pubFailText tag
        { task_id := some a, user_id := some b, image_data := some img }
      = [BrokerAction.publishResult
           (FormulaWorker.builtResult wid
             { task_id := some a, user_id := some b, image_data := some img }
             s l c er) false,
         BrokerAction.publishResult
           (FormulaWorker.errorResult wid
             { task_id := some a, user_id := some b, image_data := some img }
             pubFailText) errPubOk,
         BrokerAction.nack tag false])
    ∧ (∀ (pred : PredictorOutcome) (pubOk : Bool),
        FormulaWorker.process_task wid imageValid pred pubOk errPubOk pubFailText tag
            { task_id := some a, user_id := some b, image_data := none }
          = [BrokerAction.publishResult
               (FormulaWorker.errorResult wid
                 { task_id := some a, user_id := some b, image_data := none }
                 "Отсутствует обязательное поле: image_data") errPubOk,
             BrokerAction.ack tag]) := by
  refine ⟨?_, ?_, ?_⟩
  · simp [FormulaWorker.process_task, FormulaWorker.validate_task_data, himg]
  · simp [FormulaWorker.process_task, FormulaWorker.validate_task_data, himg,
      FormulaWorker.send_error_result]
  · intro pred pubOk
    simp [FormulaWorker.process_task, FormulaWorker.validate_task_data,
      FormulaWorker.send_error_result]

/-- Witness for C9 as amended at a concrete input. -/
theorem c9_ack_after_publish_except_invalid_witness :
    (fun (_ : String) => true) "img" = true
    ∧ FormulaWorker.process_task "w2" (fun _ => true)
        (PredictorOutcome.returns true (some "x^2") 1 none) true true "pf" 4
        { task_id := some "tB", user_id := some "uB", image_data := some "img" }
      = [BrokerAction.publishResult
           (FormulaWorker.builtResult "w2"
             { task_id := some "tB", user_id := some "uB", image_data := some "img" }
             true (some "x^2") 1 none) true,
         BrokerAction.ack 4] :=
  ⟨rfl, (c9_ack_after_publish_except_invalid "w2" "tB" "uB" "img" "pf"
    (fun _ => true) true (some "x^2") 1 none true 4 rfl).1⟩

/-- Helper: the reconciler's write never changes the row id. -/
theorem reconcileRow_id (msg : ResultMessage) (r : TaskRow) :
    (reconcileRow msg r).id = r.id := by
  unfold reconcileRow
  split <;> rfl

/-- Helper: the reconciler's write is pointwise idempotent — it sets the terminal
fields to values depending only on the message. -/
theorem reconcileRow_idem (msg : ResultMessage) (r : TaskRow) :
    reconcileRow msg (reconcileRow msg r) = reconcileRow msg r := by
  unfold reconcileRow
  split <;> rfl

/-- Helper: updating the first row with a given id makes the subsequent lookup return
the updated row, provided the update preserves ids. -/
theorem find?_updateFirstTask (tasks : List TaskRow) (tid : String)
    (f : TaskRow → TaskRow) (r : TaskRow) (hid : ∀ x, (f x).id = x.id)
    (h : tasks.find? (fun x => x.id = tid) = some r) :
    (updateFirstTask tasks tid f).find? (fun x => x.id = tid) = some (f r) := by
  induction tasks with
  | nil => simp at h
  | cons a rs ih =>
    by_cases hb : a.id = tid
    · have hr : a = r := by
        simpa [List.find?_cons, hb] using h
      subst hr
      simp [updateFirstTask, hb, List.find?_cons, hid a]
    · have h' : rs.find? (fun x => x.id = tid) = some r := by
        simpa [List.find?_cons, hb] using h
      simpa [updateFirstTask, hb, List.find?_cons] using ih h'

/-- Helper: updating the first row with a given id twice with an id-preserving,
pointwise-idempotent update equals updating it once. -/
theorem updateFirstTask_idem (tasks : List TaskRow) (tid : String)
    (f : TaskRow → TaskRow) (hid : ∀ x, (f x).id = x.id)
    (hf : ∀ x, f (f x) = f x) :
    updateFirstTask (updateFirstTask tasks tid f) tid f
      = updateFirstTask tasks tid f := by
  induction tasks with
  | nil => rfl
  | cons a rs ih =>
    by_cases hb : a.id = tid
    · simp [updateFirstTask, hb, hid a, hf a]
    · simp [updateFirstTask, hb, ih]

/-- C5: the Reconciler is idempotent for duplicate deliveries — processing the same
ResultMessage a second time leaves the store exactly as after the first processing and
signals the broker identically. -/
theorem c5_process_result_idempotent (v : String → Bool) (db : Db)
    (msg : ResultMessage) :
    ResultProcessor.process_result v (ResultProcessor.process_result v db msg).1 msg
      = ResultProcessor.process_result v db msg := by
  cases hmu : msg.user_id with
  | none => simp [ResultProcessor.process_result, hmu]
  | some u =>
    by_cases hmem : u ∈ db.users
    · cases hmt : msg.task_id with
      | none => simp [ResultProcessor.process_result, hmu, hmem, hmt]
      | some tid =>
        cases hv : v tid with
        | false => simp [ResultProcessor.process_result, hmu, hmem, hmt, hv]
        | true =>
          cases hft : db.findTask tid with
          | none => simp [ResultProcessor.process_result, hmu, hmem, hmt, hv, hft]
          | some r =>
            have h1 : ResultProcessor.process_result v db msg
                = ({ db with tasks := updateFirstTask db.tasks tid (reconcileRow msg) },
                   BrokerSignal.acked) := by
              simp [ResultProcessor.process_result, hmu, hmem, hmt, hv, hft]
            have hft2 :
                ({ db with tasks := updateFirstTask db.tasks tid (reconcileRow msg) }
                    : Db).findTask tid
                  = some (reconcileRow msg r) :=
              find?_updateFirstTask db.tasks tid (reconcileRow msg) r
                (reconcileRow_id msg) hft
            rw [h1]
            simp [ResultProcessor.process_result, hmu, hmem, hmt, hv, hft2,
              updateFirstTask_idem db.tasks tid (reconcileRow msg)
                (reconcileRow_id msg) (reconcileRow_idem msg)]
    · simp [ResultProcessor.process_result, hmu, hmem]

/-- C4 counterexample: the job "t1" of `demoDoneDb` is already terminal (`done`, with
output "x^2" recorded), yet processing a failure ResultMessage for it overwrites the
terminal state to `error`/no output — there is no `still non-terminal` guard, so the
claim that a job already in a terminal state is never overwritten is false. -/
theorem c4_terminal_state_overwritten :
    (demoDoneDb.findTask "t1").map TaskRow.status = some TaskStatus.done
    ∧ ResultProcessor.process_result (fun _ => true) demoDoneDb demoFailMsg
      = ({ users := ["u1"],
           tasks := [{ id := "t1", user_id := "u1", status := TaskStatus.error,
                       credits_charged := 5, output_data := none,
                       error_message := some "boom" }] },
         BrokerSignal.acked) := by
  exact ⟨rfl, rfl⟩

/-- C4 as amended: for every ResultMessage carrying a parseable job id, the terminal
status/output/error is written iff the referenced user and job both exist.  When both
exist, the write is an update of the row keyed by the job id, acked afterwards, and it
is NOT guarded by the job's current status: the target row `r` is arbitrary, so a job
already in a terminal state is overwritten just the same.  In every no-write case —
the job row missing, the message carrying no user id, or the referenced user unknown —
the message is dropped (store unchanged, acked). -/
theorem c4_write_iff_found_unguarded (v : String → Bool) (db : Db)
    (msg : ResultMessage) (tid : String)
    (htid : msg.task_id = some tid) (hv : v tid = true) :
    (∀ u r, msg.user_id = some u → db.users.contains u = true →
       db.findTask tid = some r →
       ResultProcessor.process_result v db msg
         = ({ db with tasks := updateFirstTask db.tasks tid (reconcileRow msg) },
            BrokerSignal.acked)
       ∧ (reconcileRow msg r).status
           = (if msg.success then TaskStatus.done else TaskStatus.error))
    ∧ (∀ u, msg.user_id = some u → db.users.contains u = true →
       db.findTask tid = none →
       ResultProcessor.process_result v db msg = (db, BrokerSignal.acked))
    ∧ (msg.user_id = none →
       ResultProcessor.process_result v db msg = (db, BrokerSignal.acked))
    ∧ (∀ u, msg.user_id = some u → db.users.contains u = false →
       ResultProcessor.process_result v db msg = (db, BrokerSignal.acked)) := by
  refine ⟨?_, ?_, ?_, ?_⟩
  · intro u r hu huser hft
    have hmem : u ∈ db.users := by simpa using huser
    constructor
    · simp [ResultProcessor.process_result, htid, hu, hmem, hv, hft]
    · by_cases hs : msg.success <;> simp [reconcileRow, hs]
  · intro u hu huser hft
    have hmem : u ∈ db.users := by simpa using huser
    simp [ResultProcessor.process_result, htid, hu, hmem, hv, hft]
  · intro hu
    simp [ResultProcessor.process_result, hu]
  · intro u hu huser
    have hmem : u ∉ db.users := by simpa using huser
    simp [ResultProcessor.process_result, hu, hmem]

/-- Witness for C4 as amended, at the concrete store `demoDoneDb`: the both-exist case
with `demoFailMsg` (user "u1" and job "t1" present, write performed), and the
user-unknown case with the same message readdressed to the absent user "ghost" (no
write, acked). -/
theorem c4_write_iff_found_unguarded_witness :
    demoFailMsg.task_id = some "t1"
    ∧ demoFailMsg.user_id = some "u1"
    ∧ demoDoneDb.users.contains "u1" = true
    ∧ demoDoneDb.findTask "t1"
        = some { id := "t1", user_id := "u1", status := TaskStatus.done,
                 credits_charged := 5, output_data := some "x^2",
                 error_message := none }
    ∧ (ResultProcessor.process_result (fun _ => true) demoDoneDb demoFailMsg
        = ({ demoDoneDb with
             tasks := updateFirstTask demoDoneDb.tasks "t1"
               (reconcileRow demoFailMsg) }, BrokerSignal.acked)
       ∧ (reconcileRow demoFailMsg
            { id := "t1", user_id := "u1", status := TaskStatus.done,
              credits_charged := 5, output_data := some "x^2",
              error_message := none }).status
           = (if demoFailMsg.success then TaskStatus.done else TaskStatus.error))
    ∧ (demoDoneDb.users.contains "ghost" = false
       ∧ ResultProcessor.process_result (fun _ => true) demoDoneDb
           { demoFailMsg with user_id := some "ghost" }
         = (demoDoneDb, BrokerSignal.acked)) :=
  ⟨rfl, rfl, rfl, rfl,
   (c4_write_iff_found_unguarded (fun _ => true) demoDoneDb demoFailMsg "t1"
     rfl rfl).1 "u1"
     { id := "t1", user_id := "u1", status := TaskStatus.done,
       credits_charged := 5, output_data := some "x^2", error_message := none }
     rfl rfl rfl,
   rfl,
   (c4_write_iff_found_unguarded (fun _ => true) demoDoneDb
     { demoFailMsg with user_id := some "ghost" } "t1"
     rfl rfl).2.2.2 "ghost" rfl rfl⟩

/-- Helper: in a well-keyed cache, a successful lookup returns a message carrying the
looked-up job id. -/
theorem wellKeyed_storeGet (s : FetchStore) (k : String) (r : FetchMsg)
    (hw : wellKeyed s) (h : storeGet s k = some r) : r.task_id = some k := by
  unfold storeGet at h
  cases hf : s.find? (fun p => p.1 = k) with
  | none => simp [hf] at h
  | some p =>
    have hm := List.mem_of_find?_eq_some hf
    have hp : p.1 = k := by simpa using List.find?_some hf
    have hk := hw p hm
    simp only [hf, Option.map_some'] at h
    have h2 : p.2 = r := Option.some.inj h
    rw [← h2, hk, hp]

/-- Helper: writing a cache entry makes the lookup under its key return it. -/
theorem storeGet_storeSet_self (s : FetchStore) (k : String) (v : FetchMsg) :
    storeGet (storeSet s k v) k = some v := by
  induction s with
  | nil => simp [storeSet, storeGet]
  | cons p rest ih =>
    by_cases hb : p.1 = k
    · simp [storeSet, hb, storeGet]
    · simp only [storeSet, hb, if_neg]
      simpa [storeGet, List.find?_cons, hb] using ih

/-- Helper: writing a cache entry leaves lookups under other keys unchanged. -/
theorem storeGet_storeSet_ne (s : FetchStore) (k k' : String) (v : FetchMsg)
    (h : k' ≠ k) : storeGet (storeSet s k v) k' = storeGet s k' := by
  induction s with
  | nil => simp [storeSet, storeGet, List.find?_cons, Ne.symm h]
  | cons p rest ih =>
    by_cases hb : p.1 = k
    · subst hb
      simp [storeSet, storeGet, List.find?_cons, h, Ne.symm h]
    · simp only [storeSet, hb, if_neg]
      by_cases hb' : p.1 = k'
      · simp [storeGet, List.find?_cons, hb']
      · simpa [storeGet, List.find?_cons, hb'] using ih

/-- Helper: writing a message under the id it carries preserves well-keyedness. -/
theorem wellKeyed_storeSet (s : FetchStore) (k : String) (v : FetchMsg)
    (hw : wellKeyed s) (hv : v.task_id = some k) : wellKeyed (storeSet s k v) := by
  induction s with
  | nil =>
    intro p hp
    simp only [storeSet, List.mem_singleton] at hp
    rw [hp]
    exact hv
  | cons a rest ih =>
    intro p hp
    by_cases hb : a.1 = k
    · simp only [storeSet, hb, if_pos, List.mem_cons] at hp
      rcases hp with hpa | hp
      · rw [hpa]
        exact hv
      · exact hw p (List.mem_cons_of_mem a hp)
    · simp only [storeSet, hb, if_neg] at hp
      cases hp with
      | head => exact hw a (List.mem_cons_self a rest)
      | tail _ hp =>
        exact ih (fun p' hp' => hw p' (List.mem_cons_of_mem a hp')) p hp

/-- Helper: caching one drained message preserves well-keyedness. -/
theorem wellKeyed_process_result_message (s : FetchStore) (m : FetchMsg)
    (hw : wellKeyed s) :
    wellKeyed (BackendMessaging.process_result_message s m) := by
  cases hm : m.task_id with
  | none => simpa [BackendMessaging.process_result_message, hm] using hw
  | some k =>
    simpa [BackendMessaging.process_result_message, hm] using
      wellKeyed_storeSet s k m hw hm

/-- Helper: caching one drained message never removes a cached key. -/
theorem storeGet_process_isSome (s : FetchStore) (m : FetchMsg) (k : String)
    (h : (storeGet s k).isSome) :
    (storeGet (BackendMessaging.process_result_message s m) k).isSome := by
  cases hm : m.task_id with
  | none => simpa [BackendMessaging.process_result_message, hm] using h
  | some tid =>
    by_cases hb : k = tid
    · subst hb
      simp [BackendMessaging.process_result_message, hm, storeGet_storeSet_self]
    · simpa [BackendMessaging.process_result_message, hm,
        storeGet_storeSet_ne s tid k m hb] using h

/-- Helper: a result returned by the polling loop from a well-keyed cache carries the
requested job id. -/
theorem loop_result_keyed (tid : String) (b : Nat) (store : FetchStore)
    (q : List FetchMsg) (hw : wellKeyed store) (r : FetchMsg)
    (h : (getTaskResultLoop tid b store q).1 = some r) : r.task_id = some tid := by
  induction b generalizing store q with
  | zero => simp [getTaskResultLoop] at h
  | succ n ih =>
    cases q with
    | nil => exact ih store [] hw (by simpa [getTaskResultLoop] using h)
    | cons m rest =>
      have hw' : wellKeyed (BackendMessaging.process_result_message store m) :=
        wellKeyed_process_result_message store m hw
      cases hg : storeGet (BackendMessaging.process_result_message store m) tid with
      | some r' =>
        have hr : r' = r := by simpa [getTaskResultLoop, hg] using h
        exact wellKeyed_storeGet _ tid r hw' (hr ▸ hg)
      | none =>
        exact ih _ rest hw' (by simpa [getTaskResultLoop, hg] using h)

/-- Helper: when the requested id is not cached and none of the messages reachable
within the budget carries it, the polling loop times out with `none`. -/
theorem loop_timeout (tid : String) (b : Nat) (store : FetchStore)
    (q : List FetchMsg) (h0 : storeGet store tid = none)
    (hq : ∀ m ∈ q.take b, m.task_id ≠ some tid) :
    (getTaskResultLoop tid b store q).1 = none := by
  induction b generalizing store q with
  | zero => simp [getTaskResultLoop]
  | succ n ih =>
    cases q with
    | nil => simpa [getTaskResultLoop] using ih store [] h0 (by simp)
    | cons m rest =>
      have hm : m.task_id ≠ some tid := hq m (by simp)
      have hg : storeGet (BackendMessaging.process_result_message store m) tid
          = none := by
        cases hmt : m.task_id with
        | none => simpa [BackendMessaging.process_result_message, hmt] using h0
        | some k =>
          have hk : tid ≠ k := fun hk => hm (by rw [hmt, hk])
          simpa [BackendMessaging.process_result_message, hmt,
            storeGet_storeSet_ne store k tid m hk] using h0
      have hrec := ih _ rest hg (fun m' hm' => hq m' (by simp [hm']))
      simpa [getTaskResultLoop, hg] using hrec

/-- Helper: the polling loop never evicts a cached key. -/
theorem loop_store_mono (tid : String) (b : Nat) (store : FetchStore)
    (q : List FetchMsg) (k : String) (h : (storeGet store k).isSome) :
    (storeGet (getTaskResultLoop tid b store q).2.1 k).isSome := by
  induction b generalizing store q with
  | zero => simpa [getTaskResultLoop] using h
  | succ n ih =>
    cases q with
    | nil => simpa [getTaskResultLoop] using ih store [] h
    | cons m rest =>
      have h' := storeGet_process_isSome store m k h
      cases hg : storeGet (BackendMessaging.process_result_message store m) tid with
      | some r => simpa [getTaskResultLoop, hg] using h'
      | none => simpa [getTaskResultLoop, hg] using ih _ rest h'

/-- Helper: the polling loop keeps the cache well-keyed. -/
theorem loop_store_keyed (tid : String) (b : Nat) (store : FetchStore)
    (q : List FetchMsg) (hw : wellKeyed store) :
    wellKeyed (getTaskResultLoop tid b store q).2.1 := by
  induction b generalizing store q with
  | zero => simpa [getTaskResultLoop] using hw
  | succ n ih =>
    cases q with
    | nil => simpa [getTaskResultLoop] using ih store [] hw
    | cons m rest =>
      have hw' := wellKeyed_process_result_message store m hw
      cases hg : storeGet (BackendMessaging.process_result_message store m) tid with
      | some r => simpa [getTaskResultLoop, hg] using hw'
      | none => simpa [getTaskResultLoop, hg] using ih _ rest hw'

/-- Helper: every message the polling loop drained (in the queue but no longer in the
unconsumed remainder) that carries a job id leaves a cache entry under that id. -/
theorem loop_drained_cached (tid : String) (b : Nat) (store : FetchStore)
    (q : List FetchMsg) (k : String) (m : FetchMsg) (hmq : m ∈ q)
    (hid : m.task_id = some k)
    (hnr : m ∉ (getTaskResultLoop tid b store q).2.2) :
    (storeGet (getTaskResultLoop tid b store q).2.1 k).isSome := by
  induction b generalizing store q with
  | zero =>
    simp only [getTaskResultLoop] at hnr
    exact absurd hmq hnr
  | succ n ih =>
    cases q with
    | nil => simp at hmq
    | cons m0 rest =>
      cases hg : storeGet (BackendMessaging.process_result_message store m0) tid with
      | some r =>
        simp only [getTaskResultLoop, hg] at hnr ⊢
        rcases List.mem_cons.mp hmq with rfl | hmr
        · simp [BackendMessaging.process_result_message, hid, storeGet_storeSet_self]
        · exact absurd hmr hnr
      | none =>
        simp only [getTaskResultLoop, hg] at hnr ⊢
        rcases List.mem_cons.mp hmq with rfl | hmr
        · apply loop_store_mono
          simp [BackendMessaging.process_result_message, hid, storeGet_storeSet_self]
        · exact ih _ rest hmr hnr

/-- Helper: the concrete demo cache is well-keyed. -/
theorem demoFetchStore_wellKeyed : wellKeyed demoFetchStore := by
  intro p hp
  simp only [demoFetchStore, List.mem_singleton] at hp
  rw [hp]
  rfl

/-- C7: the Synchronous Fetcher.  (1) A result already cached for the requested job id
is returned immediately, with cache and queue untouched.  (2) From a well-keyed cache
the fetcher never returns a wrong result: any returned message carries the requested
job id.  (3) When the id is not cached and no message reachable within the timeout
budget carries it, the fetch returns the timeout indication `none`.  (4) Every result
message drained during the wait that carries a job id is cached keyed by that id, so a
message for a different job satisfies that job's later fetch instead of being lost. -/
theorem c7_get_task_result_contract (tid : String) (store : FetchStore)
    (q : List FetchMsg) (b : Nat) :
    (∀ r, storeGet store tid = some r →
        BackendMessaging.get_task_result tid store q b = (some r, store, q))
    ∧ (wellKeyed store → ∀ r,
        (BackendMessaging.get_task_result tid store q b).1 = some r →
        r.task_id = some tid)
    ∧ (storeGet store tid = none →
        (∀ m ∈ q.take b, m.task_id ≠ some tid) →
        (BackendMessaging.get_task_result tid store q b).1 = none)
    ∧ (wellKeyed store → ∀ k m, m ∈ q → m.task_id = some k →
        m ∉ (BackendMessaging.get_task_result tid store q b).2.2 →
        ∃ r, storeGet (BackendMessaging.get_task_result tid store q b).2.1 k = some r
          ∧ r.task_id = some k) := by
  refine ⟨?_, ?_, ?_, ?_⟩
  · intro r h
    simp [BackendMessaging.get_task_result, h]
  · intro hw r h
    cases hg : storeGet store tid with
    | some r0 =>
      have hr : r0 = r := by
        simpa [BackendMessaging.get_task_result, hg] using h
      exact wellKeyed_storeGet store tid r hw (hr ▸ hg)
    | none =>
      exact loop_result_keyed tid b store q hw r
        (by simpa [BackendMessaging.get_task_result, hg] using h)
  · intro h0 hq
    simpa [BackendMessaging.get_task_result, h0] using loop_timeout tid b store q h0 hq
  · intro hw k m hmq hid hnr
    cases hg : storeGet store tid with
    | some r0 =>
      simp only [BackendMessaging.get_task_result, hg] at hnr
      exact absurd hmq hnr
    | none =>
      simp only [BackendMessaging.get_task_result, hg] at hnr ⊢
      have hs := loop_drained_cached tid b store q k m hmq hid hnr
      obtain ⟨r, hr⟩ := Option.isSome_iff_exists.mp hs
      exact ⟨r, hr, wellKeyed_storeGet _ k r (loop_store_keyed tid b store q hw) hr⟩

/-- Witness for C7 at concrete inputs: a cache hit for job "a" returns immediately; a
fetch for the uncached job "c" against a queue holding only job "b"'s message times
out; and job "b"'s message, drained during that fetch, ends up cached under "b". -/
theorem c7_get_task_result_contract_witness :
    (storeGet demoFetchStore "a" = some demoMsgA
     ∧ BackendMessaging.get_task_result "a" demoFetchStore demoQueue 2
        = (some demoMsgA, demoFetchStore, demoQueue))
    ∧ (storeGet demoFetchStore "c" = none
       ∧ (BackendMessaging.get_task_result "c" demoFetchStore demoQueue 2).1 = none)
    ∧ (wellKeyed demoFetchStore
       ∧ ∃ r, storeGet
            (BackendMessaging.get_task_result "c" demoFetchStore demoQueue 2).2.1 "b"
            = some r
          ∧ r.task_id = some "b") := by
  refine ⟨⟨rfl, ?_⟩, ⟨rfl, ?_⟩, ⟨demoFetchStore_wellKeyed, ?_⟩⟩
  · exact (c7_get_task_result_contract "a" demoFetchStore demoQueue 2).1 demoMsgA rfl
  · exact (c7_get_task_result_contract "c" demoFetchStore demoQueue 2).2.2.1 rfl
      (by decide)
  · exact (c7_get_task_result_contract "c" demoFetchStore demoQueue 2).2.2.2
      demoFetchStore_wellKeyed "b" demoMsgB (by decide) rfl (by decide)
